import Mathlib

/-!
Verification of the Kleinanzeigen-Hunter extraction-and-ingestion pipeline.

This file gives a shallow embedding, in Lean 4, of the parts of the
repository that the specification's testable claims are about:

* `src/models/results.py`  — the pydantic field validators (field normalizers);
* `src/utils/database.py`  — the SQLite/SQLAlchemy upsert store;
* `src/utils/cache.py`     — the Redis cache-aside helpers;
* `src/scrapers/rentals.py` — the search-URL builder, the category filter,
  the price-text cleaner, the page extractor, and the scrape orchestrator.

Conventions of the embedding:

* Python strings are Lean `String`s; the Python string operations used by
  the code (`replace`, `strip`, `split`, `in`, `lstrip`, `rstrip`) are
  modelled by structurally recursive functions on the character list, so
  that every definition evaluates by kernel reduction.  Whitespace is
  modelled at the ASCII level (`Char.isWhitespace`).  Python's
  per-character `str.isdigit` test is wider than the set of decimal
  digits `int()` accepts; the model keeps that distinction
  (`pyIsDigitChar` as against `Char.isDigit`), with the Latin-1
  superscript digits standing in for the non-decimal digit characters.
* Python `None` becomes `Option.none`; Python truthiness of strings
  (`""` and `None` are falsy) is made explicit by `truthyStr`.
* Fallible Python operations (`int(...)`, `float(...)`) are modelled as
  `Except PyErr` computations; a `try/except ValueError` block becomes
  `catchValueError`.  A Lean value of the form `.error e` escaping a
  function models an uncaught Python exception.
* `float` values are modelled as exact rationals (`ℚ`); the inputs the
  code feeds to `float()` are short sign/digit/dot strings, on which the
  rational model agrees with IEEE semantics for the properties proved here.
* The mutable stores (SQLite table, Redis backend, the process-wide
  cache-disabled flag) are modelled by explicit state passing.
-/

/-! ## Structural models of the Python string operations -/

/-- `isPre p c` holds when `p` is an initial run of `c` (used by `pyReplace`). -/
def isPre : List Char → List Char → Bool
  | [], _ => true
  | _ :: _, [] => false
  | p :: ps, c :: cs => p == c && isPre ps cs

/-- Worker for `pyReplace`: replace every (leftmost, non-overlapping)
occurrence of `pat` by `rep`, with explicit fuel so the recursion is
structural.  With `fuel ≥ length` and `pat ≠ []` this is Python
`str.replace`. -/
def replFuel (rep pat : List Char) : Nat → List Char → List Char
  | 0, cs => cs
  | _ + 1, [] => []
  | f + 1, c :: rest =>
      if isPre pat (c :: rest) then rep ++ replFuel rep pat f ((c :: rest).drop pat.length)
      else c :: replFuel rep pat f rest

/-- Model of Python `s.replace(pat, rep)` for non-empty `pat` (the code
never replaces an empty pattern). -/
def pyReplace (s pat rep : String) : String :=
  if pat.data.isEmpty then s
  else String.mk (replFuel rep.data pat.data s.data.length s.data)

/-- Model of Python `s.strip()` (ASCII whitespace). -/
def pyStrip (s : String) : String :=
  String.mk (((s.data.dropWhile Char.isWhitespace).reverse.dropWhile
    Char.isWhitespace).reverse)

/-- Model of Python `s.split(sep)` for a one-character separator, on the
character list.  Like Python's, it keeps empty pieces and returns `[[]]`
for the empty string. -/
def splitOnChar (sep : Char) : List Char → List (List Char)
  | [] => [[]]
  | c :: rest =>
      match splitOnChar sep rest with
      | [] => [[c]]
      | h :: t => if c == sep then [] :: h :: t else (c :: h) :: t

/-- Python truthiness of an optional string: `None` and `""` are falsy. -/
def truthyStr : Option String → Option String
  | none => none
  | some s => if s = "" then none else some s

/-! ## Model of fallible Python numeric conversions -/

/-- Errors raised by the modelled Python operations (`int`, `float`). -/
inductive PyErr : Type
  | valueError
  deriving DecidableEq, Repr

/-- Decidable equality of modelled Python results, for concrete evaluation. -/
instance {ε α : Type} [DecidableEq ε] [DecidableEq α] : DecidableEq (Except ε α) :=
  fun a b =>
    match a, b with
    | .ok x, .ok y =>
        if h : x = y then isTrue (by rw [h]) else
          isFalse (fun hc => by cases hc; exact h rfl)
    | .error x, .error y =>
        if h : x = y then isTrue (by rw [h]) else
          isFalse (fun hc => by cases hc; exact h rfl)
    | .ok _, .error _ => isFalse (fun hc => by cases hc)
    | .error _, .ok _ => isFalse (fun hc => by cases hc)

/-- Numeric value of a list of ASCII digit characters, most significant first. -/
def decDigitsVal (cs : List Char) : Nat :=
  cs.foldl (fun n c => 10 * n + (c.toNat - 48)) 0

/-- Model of Python `int(s)` (base 10) on strings: optional surrounding
whitespace, optional sign, then a non-empty run of decimal digits —
`int()` accepts only decimal digits (Unicode Nd, here the ASCII digits),
NOT everything `str.isdigit` accepts. -/
def pyInt? (s : String) : Option Int :=
  let cs := (pyStrip s).data
  let sgn : Int := if cs.head? = some '-' then -1 else 1
  let body := if cs.head? = some '-' ∨ cs.head? = some '+' then cs.tail else cs
  if !body.isEmpty && body.all Char.isDigit then
    some (sgn * (decDigitsVal body : Int))
  else
    none

/-- Model of Python `float(s)` on the strings this code builds: optional
sign, digits with at most one decimal point, at least one digit.  The
result is the exact rational denoted by the literal. -/
def pyFloat? (s : String) : Option ℚ :=
  let cs := (pyStrip s).data
  let sgn : ℚ := if cs.head? = some '-' then -1 else 1
  let body := if cs.head? = some '-' ∨ cs.head? = some '+' then cs.tail else cs
  let intPart := body.takeWhile (fun c => c != '.')
  let rest := body.dropWhile (fun c => c != '.')
  match rest with
  | [] =>
      if !intPart.isEmpty && intPart.all Char.isDigit then
        some (sgn * (decDigitsVal intPart : ℚ))
      else
        none
  | _ :: frac =>
      if frac.contains '.' then none
      else if intPart.isEmpty && frac.isEmpty then none
      else if intPart.all Char.isDigit && frac.all Char.isDigit then
        some (sgn * ((decDigitsVal intPart : ℚ) +
          (decDigitsVal frac : ℚ) / (10 : ℚ) ^ frac.length))
      else
        none

/-- Python `int(s)` as a fallible computation: raises `ValueError` on
strings it does not accept. -/
def pyIntE (s : String) : Except PyErr Int :=
  match pyInt? s with
  | some n => .ok n
  | none => .error .valueError

/-- Python `float(s)` as a fallible computation: raises `ValueError` on
strings it does not accept. -/
def pyFloatE (s : String) : Except PyErr ℚ :=
  match pyFloat? s with
  | some q => .ok q
  | none => .error .valueError

/-- Model of Python's per-character `str.isdigit` test: the decimal
digits plus the non-decimal Numeric_Type=Digit characters, represented
here by the Latin-1 superscript digits `¹`, `²`, `³` (the real Unicode
class is larger; these members suffice to exhibit its divergence from
what `int()` accepts). -/
def pyIsDigitChar (c : Char) : Bool :=
  c.isDigit || c == '¹' || c == '²' || c == '³'

/-- Model of Python `str.isdigit`: non-empty and every character passes
the per-character `isdigit` test — a strictly wider test than the
decimal digits `int()` accepts. -/
def pyIsdigit (s : String) : Bool :=
  !s.data.isEmpty && s.data.all pyIsDigitChar

/-- A Python `try: ... except ValueError: ...` block. -/
def catchValueError {α : Type} (x : Except PyErr α) (handler : Except PyErr α) :
    Except PyErr α :=
  match x with
  | .error .valueError => handler
  | other => other

/-! ## Field normalizers (src/models/results.py) -/

/-- `ListingResult._normalize_price` (src/models/results.py:21-31), string
input case: `""`/`"-"` map to `None`; otherwise strip and remove spaces,
and call `int` only when `isdigit` holds, else `None`. -/
def ListingResult_normalize_price (value : String) : Except PyErr (Option Int) :=
  if value = "" || value = "-" then .ok none
  else
    let digits := pyReplace (pyStrip value) " " ""
    if pyIsdigit digits then do
      let n ← pyIntE digits
      return some n
    else .ok none

/-- `RealEstateResult._normalize_rental_space` (src/models/results.py:48-64),
string input case: comma becomes dot, keep only digits and dots, then
`float` inside a `try/except ValueError`. -/
def RealEstateResult_normalize_rental_space (value : String) :
    Except PyErr (Option ℚ) :=
  if value = "" then .ok none
  else
    let normalized := pyStrip (pyReplace value "," ".")
    let cleaned := String.mk (normalized.data.filter (fun c => pyIsDigitChar c || c == '.'))
    catchValueError
      (if cleaned.data.isEmpty then .ok none else (pyFloatE cleaned).map some)
      (.ok none)

/-- `RealEstateResult._normalize_nbr_rooms` (src/models/results.py:66-82),
string input case: same algorithm as `_normalize_rental_space`. -/
def RealEstateResult_normalize_nbr_rooms (value : String) :
    Except PyErr (Option ℚ) :=
  if value = "" then .ok none
  else
    let normalized := pyStrip (pyReplace value "," ".")
    let cleaned := String.mk (normalized.data.filter (fun c => pyIsDigitChar c || c == '.'))
    catchValueError
      (if cleaned.data.isEmpty then .ok none else (pyFloatE cleaned).map some)
      (.ok none)

/-- `RealEstateResult._normalize_views` (src/models/results.py:84-94), string
input case: keep only digits, `int` of them when non-empty, else `None`. -/
def RealEstateResult_normalize_views (value : String) : Except PyErr (Option Int) :=
  if value = "" then .ok none
  else
    let digits := String.mk (value.data.filter pyIsDigitChar)
    if digits.data.isEmpty then .ok none else (pyIntE digits).map some

/-- `RealEstateResult._normalize_cost_like` (src/models/results.py:96-134),
string input case: strip currency noise, resolve the `.`/`,` separator
ambiguity, then `float` inside a `try/except ValueError`. -/
def RealEstateResult_normalize_cost_like (value : String) :
    Except PyErr (Option ℚ) :=
  if value = "" || value = "-" then .ok none
  else
    let cleaned0 := pyStrip
      (pyReplace (pyReplace (pyReplace (pyReplace value "€" "") "EUR" "") "VB" "") " " "")
    let cleaned :=
      if cleaned0.data.contains ',' && cleaned0.data.contains '.' then
        pyReplace (pyReplace cleaned0 "." "") "," "."
      else if cleaned0.data.contains ',' then
        pyReplace cleaned0 "," "."
      else if cleaned0.data.contains '.' then
        let parts := splitOnChar '.' cleaned0.data
        if parts.length == 2 && (parts.getD 1 []).length == 3 then
          pyReplace cleaned0 "." ""
        else cleaned0
      else cleaned0
    catchValueError
      (if cleaned.data.isEmpty then .ok none else (pyFloatE cleaned).map some)
      (.ok none)

set_option maxRecDepth 8000 in
example : RealEstateResult_normalize_cost_like "950,50" = .ok (some (1901 / 2 : ℚ)) := by
  with_unfolding_all decide

set_option maxRecDepth 8000 in
example : RealEstateResult_normalize_cost_like "1.234.567" = .ok none := by
  with_unfolding_all decide

set_option maxRecDepth 8000 in
example : RealEstateResult_normalize_cost_like "1.200" = .ok (some (1200 : ℚ)) := by
  with_unfolding_all decide

set_option maxRecDepth 8000 in
example : RealEstateResult_normalize_cost_like "1.234,50" = .ok (some (2469 / 2 : ℚ)) := by
  with_unfolding_all decide

example : ListingResult_normalize_price "1396" = .ok (some 1396) := by decide

example : ListingResult_normalize_price "950,50" = .ok none := by decide

set_option maxRecDepth 8000 in
example : RealEstateResult_normalize_nbr_rooms "3,5 Zimmer" = .ok (some (7 / 2 : ℚ)) := by
  with_unfolding_all decide

example : RealEstateResult_normalize_views "1.234" = .ok (some 1234) := by decide

/-! ## Upsert store (src/utils/database.py)

The SQLite `rentals` table is modelled as a list of rows in insertion
order; `adid` carries a UNIQUE constraint in the schema, which appears
here as a `Nodup` hypothesis where relevant.  The DB-managed timestamp
columns (`scraped_at`, `updated_at`) and the surrogate `id` are outside
the model: the claims below are about the listing fields. -/

/-- A row of the `rentals` table (class `Rental`, src/utils/database.py:34-57). -/
structure Rental where
  adid : String
  url : String
  title : String
  price : String
  old_price : String
  description : Option String
  rental_space : Option String
  nbr_rooms : Option String
  available_from : Option String
  views : Option String
  location : Option String
  postal_code : Option String
  category : Option String
  location_id : Option String
  radius : Option Int
  deriving DecidableEq, Repr

/-- The table contents, in insertion order. -/
abbrev Store := List Rental

/-- `session.query(Rental).filter_by(adid=adid).one_or_none()`: the row
with the given external id, if any (first match in table order). -/
def findRow (s : Store) (a : String) : Option Rental :=
  s.find? (fun r => r.adid == a)

/-- A scraped record as passed to `bulk_insert_rentals` (a Python dict:
every `r.get(...)` may be absent, hence `Option`). -/
structure ScrapedRec where
  adid : Option String
  url : Option String
  title : Option String
  price : Option String
  old_price : Option String
  description : Option String
  rental_space : Option String
  nbr_rooms : Option String
  available_from : Option String
  views : Option String
  location : Option String
  deriving DecidableEq, Repr

/-- Python `x or d` for an optional string `x` and string default `d`. -/
def orDefaultStr (x : Option String) (d : String) : String :=
  match truthyStr x with
  | some s => s
  | none => d

/-- Python `x or old` where the stored field `old` is itself optional. -/
def coalesceStr (x : Option String) (old : Option String) : Option String :=
  match truthyStr x with
  | some s => some s
  | none => old

/-- Python `x or old or "0"` (the `old_price` merge in the update path). -/
def oldPriceMerge (x : Option String) (old : String) : String :=
  match truthyStr x with
  | some s => s
  | none => if old = "" then "0" else old

/-- Python `x or old` for optional ints; note `0` is falsy in Python. -/
def coalesceInt (x : Option Int) (old : Option Int) : Option Int :=
  match x with
  | some i => if i = 0 then old else some i
  | none => old

/-- `insert_rental` (src/utils/database.py:84-141): single-record upsert.
Insert path creates the row; update path assigns every field from the
arguments unconditionally.  Returns the new table and `True` iff a row
was inserted. -/
def insert_rental (store : Store) (adid url title price old_price : String)
    (description rental_space nbr_rooms available_from views location
      postal_code category location_id : Option String)
    (radius : Option Int) : Store × Bool :=
  let row : Rental :=
    { adid := adid
      url := url
      title := title
      price := price
      old_price := if old_price = "" then "0" else old_price
      description := description
      rental_space := rental_space
      nbr_rooms := nbr_rooms
      available_from := available_from
      views := views
      location := location
      postal_code := postal_code
      category := category
      location_id := location_id
      radius := radius }
  match findRow store adid with
  | none => (store ++ [row], true)
  | some _ =>
      (store.map (fun r => if r.adid == adid then { row with adid := r.adid } else r),
       false)

/-- The row built on the insert path of `bulk_insert_rentals`
(src/utils/database.py:161-179). -/
def bulkInsertRow (a : String) (r : ScrapedRec) (pc cat loc : Option String)
    (rad : Option Int) : Rental :=
  { adid := a,
    url := orDefaultStr r.url "",
    title := orDefaultStr r.title "",
    price := orDefaultStr r.price "",
    old_price := orDefaultStr r.old_price "0",
    description := r.description,
    rental_space := r.rental_space,
    nbr_rooms := r.nbr_rooms,
    available_from := r.available_from,
    views := r.views,
    location := r.location,
    postal_code := pc, category := cat, location_id := loc, radius := rad }

/-- The coalescing field merge on the update path of `bulk_insert_rentals`
(src/utils/database.py:181-194). -/
def bulkUpdateRow (e : Rental) (r : ScrapedRec) (pc cat loc : Option String)
    (rad : Option Int) : Rental :=
  { e with
    url := orDefaultStr r.url e.url,
    title := orDefaultStr r.title e.title,
    price := orDefaultStr r.price e.price,
    old_price := oldPriceMerge r.old_price e.old_price,
    description := coalesceStr r.description e.description,
    rental_space := coalesceStr r.rental_space e.rental_space,
    nbr_rooms := coalesceStr r.nbr_rooms e.nbr_rooms,
    available_from := coalesceStr r.available_from e.available_from,
    views := coalesceStr r.views e.views,
    location := coalesceStr r.location e.location,
    postal_code := coalesceStr pc e.postal_code,
    category := coalesceStr cat e.category,
    location_id := coalesceStr loc e.location_id,
    radius := coalesceInt rad e.radius }

/-- SQLAlchemy's in-place mutation of the found row: every row with the
given adid is replaced (the schema's UNIQUE constraint makes it one). -/
def replaceRow (s : Store) (a : String) (n : Rental) : Store :=
  s.map (fun r => if r.adid == a then n else r)

/-- Loop of `bulk_insert_rentals` (src/utils/database.py:144-197):
records with a falsy adid are skipped; unseen adids are inserted
(`session.add`, visible to later lookups in the same call); known adids
are update-merged.  Accumulates `(inserted, updated)`. -/
def bulkGo (pc cat loc : Option String) (rad : Option Int) :
    List ScrapedRec → Store → Nat → Nat → Store × Nat × Nat
  | [], s, i, u => (s, i, u)
  | r :: rest, s, i, u =>
      match truthyStr r.adid with
      | none => bulkGo pc cat loc rad rest s i u
      | some a =>
          match findRow s a with
          | none => bulkGo pc cat loc rad rest
              (s ++ [bulkInsertRow a r pc cat loc rad]) (i + 1) u
          | some e => bulkGo pc cat loc rad rest
              (replaceRow s a (bulkUpdateRow e r pc cat loc rad)) i (u + 1)

/-- `bulk_insert_rentals` (src/utils/database.py:144-197). -/
def bulk_insert_rentals (store : Store) (recs : List ScrapedRec)
    (pc cat loc : Option String) (rad : Option Int) : Store × Nat × Nat :=
  bulkGo pc cat loc rad recs store 0 0

/-- `get_rental_by_adid` (src/utils/database.py:200-224): point lookup
returning the row's listing fields (the returned dict's `id`,
`scraped_at`, `updated_at` entries are DB-managed and outside the model). -/
def get_rental_by_adid (store : Store) (a : String) : Option Rental :=
  findRow store a

/-! ## Cache-aside layer (src/utils/cache.py)

The Redis backend is modelled by passing in the response it would give to
the one backend call an operation makes: `Except RedisErr v`, where an
`.error` is a raised `RedisError`/`OSError`.  The process-wide state is
the `_cache_state["disabled"]` flag; `json.loads` is modelled by an
arbitrary decode function (its failure branch is what matters here). -/

/-- A backend exception (`RedisError` / `OSError`). -/
inductive RedisErr : Type
  | err
  deriving DecidableEq, Repr

/-- Static cache configuration (`CACHE_ENABLED`, `REDIS_URL`). -/
structure CacheCfg where
  enabled : Bool
  redisUrl : String
  deriving DecidableEq, Repr

/-- The process-wide mutable cache state (`_cache_state["disabled"]`). -/
structure CacheState where
  disabled : Bool
  deriving DecidableEq, Repr

/-- `cache_available` (src/utils/cache.py:20-23). -/
def cache_available (cfg : CacheCfg) (st : CacheState) : Bool :=
  cfg.enabled && !(cfg.redisUrl == "") && !st.disabled

/-- `_disable_cache` (src/utils/cache.py:108-113). -/
def disable_cache (st : CacheState) : CacheState :=
  { st with disabled := true }

/-- A value returned by `get_cached_value`: either the decoded JSON
payload or, when decoding fails, the raw stored string. -/
inductive CachedValue (J : Type) : Type
  | json (j : J)
  | raw (s : String)
  deriving DecidableEq, Repr

/-- `get_cached_value` (src/utils/cache.py:48-65).  `backendGet` is what
`client.get(key)` returns (or raises); `decode` is `json.loads`. -/
def get_cached_value {J : Type} (cfg : CacheCfg) (st : CacheState)
    (decode : String → Option J) (backendGet : Except RedisErr (Option String)) :
    Option (CachedValue J) × CacheState :=
  if !(cache_available cfg st) then (none, st)
  else
    match backendGet with
    | .error _ => (none, disable_cache st)
    | .ok none => (none, st)
    | .ok (some payload) =>
        match decode payload with
        | some j => (some (.json j), st)
        | none => (some (.raw payload), st)

/-- `set_cached_value` (src/utils/cache.py:68-81).  `backendSet` is what
`client.set(...)` returns (or raises). -/
def set_cached_value (cfg : CacheCfg) (st : CacheState)
    (backendSet : Except RedisErr Unit) : Bool × CacheState :=
  if !(cache_available cfg st) then (false, st)
  else
    match backendSet with
    | .error _ => (false, disable_cache st)
    | .ok _ => (true, st)

/-- `invalidate_cache` (src/utils/cache.py:84-96).  `backendDel` is the
count `client.delete(key)` returns (or raises). -/
def invalidate_cache (cfg : CacheCfg) (st : CacheState)
    (backendDel : Except RedisErr Nat) : Bool × CacheState :=
  if !(cache_available cfg st) then (false, st)
  else
    match backendDel with
    | .error _ => (false, disable_cache st)
    | .ok removed => (!(removed == 0), st)

/-! ## Search-URL builder and category helpers (src/scrapers/rentals.py) -/

/-- `KLEINANZEIGEN_BASE_URL` (src/config.py:8). -/
def KLEINANZEIGEN_BASE_URL : String := "https://www.kleinanzeigen.de"

/-- Python `str(x)` for an optional int, rendered `""` when absent
(the `min_price_str`/`max_price_str` computation). -/
def optIntStr (x : Option Int) : String :=
  match x with
  | some n => toString n
  | none => ""

/-- `build_search_url` (src/scrapers/rentals.py:11-51). -/
def build_search_url (postal_code category : String) (location_id : Option String)
    (radius : Int) (min_price max_price : Option Int) (page : Int) : String :=
  let price_path :=
    if min_price.isSome || max_price.isSome then
      "/preis:" ++ optIntStr min_price ++ ":" ++ optIntStr max_price
    else ""
  let page_path := if page > 1 then "/seite:" ++ toString page else ""
  let location_param :=
    match truthyStr location_id with
    | some l => l
    | none => ""
  KLEINANZEIGEN_BASE_URL ++ "/s-wohnung-mieten/" ++ postal_code ++ price_path
    ++ page_path ++ "/" ++ category ++ location_param ++ "r" ++ toString radius

/-- `_normalize_category_id` (src/scrapers/rentals.py:140-145):
`category.lstrip("cC") or None`, with falsy input mapped to `None`. -/
def normalize_category_id (category : Option String) : Option String :=
  match truthyStr category with
  | none => none
  | some c =>
      truthyStr (some (String.mk (c.data.dropWhile (fun ch => ch == 'c' || ch == 'C'))))

/-- `_extract_category_id_from_url` (src/scrapers/rentals.py:148-155):
`url.rstrip("/").split("/")[-1].split("-")[1]` when that second token
exists, else `None`. -/
def extract_category_id_from_url (url : String) : Option String :=
  let stripped := (url.data.reverse.dropWhile (fun c => c == '/')).reverse
  let lastSeg := (splitOnChar '/' stripped).getLastD []
  ((splitOnChar '-' lastSeg)[1]?).map String.mk

/-! ## Page extractor (src/scrapers/rentals.py, `get_rental_ads`)

A listing card is modelled by the results of the DOM queries the code
performs on it.  The regex-based detail extraction (`rental_space`,
`nbr_rooms`) is abstracted as functions of the card — the claims settled
here do not depend on it and hold for every such function. -/

/-- The price container `p.aditem-main--middle--price-shipping--price`:
the text the JS `evaluate` snippet returns, the old-price span's text when
that span exists, and the container's full `inner_text`. -/
structure PriceContainer where
  evalText : String
  oldPriceElem : Option String
  innerText : String
  deriving DecidableEq, Repr

/-- The `article` element of a card: its data attributes and the
sub-element texts the extractor queries. -/
structure ArticleElem where
  dataAdid : Option String
  dataHref : Option String
  titleText : Option String
  priceContainer : Option PriceContainer
  descriptionText : Option String
  deriving DecidableEq, Repr

/-- One `.ad-listitem` card (its `article` child, when present). -/
structure AdItem where
  article : Option ArticleElem
  deriving DecidableEq, Repr

/-- The `result_item` dict emitted per kept card
(src/scrapers/rentals.py:328-338). -/
structure RawListing where
  adid : String
  url : String
  title : String
  price : String
  old_price : String
  description : String
  rental_space : Option String
  nbr_rooms : Option String
  available_from : Option String
  deriving DecidableEq, Repr

/-- `_clean_price_text` (src/scrapers/rentals.py:158-169). -/
def clean_price_text (value : Option String) : String :=
  match truthyStr value with
  | none => ""
  | some v =>
      pyStrip (pyReplace (pyReplace (pyReplace (pyReplace v "€" "") "VB" "") "." "")
        "\u00A0" "")

/-- The price/old-price extraction from the price container
(src/scrapers/rentals.py:200-243), returning `(price_text, old_price_text)`. -/
def extractPrices (pc? : Option PriceContainer) : String × String :=
  match pc? with
  | none => ("", "0")
  | some pc =>
      let price1 := clean_price_text (some pc.evalText)
      match pc.oldPriceElem with
      | some raw =>
          let old0 := clean_price_text (some raw)
          let oldp := if old0 = "" then "0" else old0
          let price2 :=
            if price1 = "" then
              clean_price_text (some (pyStrip (pyReplace pc.innerText raw "")))
            else price1
          let price3 := if price2 = "" then clean_price_text (some pc.innerText) else price2
          (price3, oldp)
      | none =>
          let price3 := if price1 = "" then clean_price_text (some pc.innerText) else price1
          (price3, "0")

/-- `{cid for cid in (allowed_category_ids or []) if cid}`
(src/scrapers/rentals.py:184). -/
def normalizedAllowed (allowed? : Option (List String)) : List String :=
  (allowed?.getD []).filter (fun c => !(c == ""))

/-- The per-card body of the `get_rental_ads` loop
(src/scrapers/rentals.py:187-340): `none` when the card contributes no
record (no article, missing adid/href, or category filtered out).
`spaceF`/`roomF` abstract the regex-based detail extraction. -/
def extract_item (normAllowed : List String)
    (spaceF roomF : ArticleElem → Option String) (it : AdItem) :
    Option RawListing :=
  match it.article with
  | none => none
  | some art =>
      let title_text := art.titleText.getD ""
      let prices := extractPrices art.priceContainer
      let description_text := art.descriptionText.getD ""
      match truthyStr art.dataAdid, truthyStr art.dataHref with
      | some adid, some href =>
          let url := KLEINANZEIGEN_BASE_URL ++ href
          let category_id := extract_category_id_from_url url
          if !normAllowed.isEmpty &&
              !(match category_id with
                | some c => normAllowed.contains c
                | none => false) then
            none
          else
            some
              { adid := adid
                url := url
                title := title_text
                price := prices.1
                old_price := prices.2
                description := description_text
                rental_space := spaceF art
                nbr_rooms := roomF art
                available_from := none }
      | _, _ => none

/-- `get_rental_ads` (src/scrapers/rentals.py:172-344) over the page's
card list, in DOM order. -/
def get_rental_ads (allowed? : Option (List String))
    (spaceF roomF : ArticleElem → Option String) (items : List AdItem) :
    List RawListing :=
  items.filterMap (extract_item (normalizedAllowed allowed?) spaceF roomF)

/-- The allowed-category list `get_rentals_klaz` passes to the extractor
(src/scrapers/rentals.py:84-85): `[expected] if expected else None`. -/
def allowedForCategory (category : String) : Option (List String) :=
  match normalize_category_id (some category) with
  | some e => some [e]
  | none => none

/-! ## Scrape orchestrator (src/scrapers/rentals.py, `get_rentals_klaz`)

Page-resource events are logged explicitly: `new_context_page` appends
`acquire`, `close_page` appends `release`.  Browser-level calls are
modelled by the outcome they would have (`Except BrowserExn`); the
`try/except/finally` around the page loop becomes `tryCatchFinallyEv`. -/

/-- A browser/navigation-level exception. -/
inductive BrowserExn : Type
  | exn (id : Nat)
  deriving DecidableEq, Repr

/-- What the whole scrape can raise: the acquire step's exception
propagates as-is; exceptions inside the `try` are re-raised as
`HTTPException(500, str(e))`. -/
inductive ScrapeFail : Type
  | browser (e : BrowserExn)
  | httpError (detail : BrowserExn)
  deriving DecidableEq, Repr

/-- Resource events on the browser page. -/
inductive PageEv : Type
  | acquire
  | release
  deriving DecidableEq, Repr

/-- The paginated loop (src/scrapers/rentals.py:95-131): per page, build
the URL, navigate (`goto`, fatal on failure), wait for the card container
(`wait`, its failure is caught and tolerated), extract, and append. -/
def loopPages (goto wait : Nat → Except BrowserExn Unit)
    (extract : Nat → Except BrowserExn (List RawListing)) :
    Nat → Nat → List RawListing → Except BrowserExn (List RawListing)
  | _, 0, acc => .ok acc
  | i, n + 1, acc =>
      match goto i with
      | .error e => .error e
      | .ok _ =>
          let _tolerated := wait i
          match extract i with
          | .error e => .error e
          | .ok rs => loopPages goto wait extract (i + 1) n (acc ++ rs)

/-- `try: body except Exception as e: raise wrap(e) finally: fin`:
the finally block's events happen on every exit path. -/
def tryCatchFinallyEv {α : Type} (body : Except BrowserExn α)
    (wrap : BrowserExn → ScrapeFail) (fin : List PageEv) :
    Except ScrapeFail α × List PageEv :=
  match body with
  | .ok a => (.ok a, fin)
  | .error e => (.error (wrap e), fin)

/-- `get_rentals_klaz` (src/scrapers/rentals.py:54-137): acquire one page
before the loop; run the paginated loop inside `try/except/finally`,
releasing the page in `finally`.  `acquire` is the outcome of
`new_context_page` (its failure propagates before any event is logged
for the page, since no page exists). -/
def get_rentals_klaz (acquire : Except BrowserExn Unit)
    (goto wait : Nat → Except BrowserExn Unit)
    (extract : Nat → Except BrowserExn (List RawListing))
    (page_count : Nat) : Except ScrapeFail (List RawListing) × List PageEv :=
  match acquire with
  | .error e => (.error (.browser e), [])
  | .ok _ =>
      let body := loopPages goto wait extract 0 page_count []
      let post := tryCatchFinallyEv body ScrapeFail.httpError [PageEv.release]
      (post.1, PageEv.acquire :: post.2)

/-! ## Spec-side definition for the separator-rule claim -/

/-- The separator rule as the amended claim words it: strip currency
noise; if both `.` and `,` occur, `.` is thousands and `,` decimal; if
only `,` occurs it is the decimal separator; if only `.` occurs it is a
thousands separator exactly when the string splits on `.` into exactly
two segments with the second of length three, otherwise the decimal
separator; the result is the numeric value, unparseable gives null. -/
def costLikeSpecAmended (value : String) : Except PyErr (Option ℚ) :=
  if value = "" || value = "-" then .ok none
  else
    let c := pyStrip
      (pyReplace (pyReplace (pyReplace (pyReplace value "€" "") "EUR" "") "VB" "") " " "")
    let resolved :=
      if c.data.contains '.' && c.data.contains ',' then
        pyReplace (pyReplace c "." "") "," "."
      else if c.data.contains ',' then
        pyReplace c "," "."
      else if c.data.contains '.' &&
          ((splitOnChar '.' c.data).length == 2 &&
            ((splitOnChar '.' c.data).getD 1 []).length == 3) then
        pyReplace c "." ""
      else c
    catchValueError
      (if resolved.data.isEmpty then .ok none else (pyFloatE resolved).map some)
      (.ok none)

/-- The row the insert path of `bulk_insert_rentals` creates for a record
(the adid argument spelled via `truthyStr`, as the loop extracts it). -/
def insRowOf (pc cat loc : Option String) (rad : Option Int) (r : ScrapedRec) : Rental :=
  bulkInsertRow ((truthyStr r.adid).getD "") r pc cat loc rad

/-! ## Theorems -/

/-- C5: a backend error during a cache `get` or `set` fails soft (miss /
`False`, no exception) and sets the process-wide disabled flag; with the
flag set, every later `get`, `set`, or `delete` skips the backend
entirely — its result is a clean miss / no-op whatever the backend
response would have been. -/
theorem cache_backend_error_soft_fail {J : Type} (cfg : CacheCfg)
    (st st' : CacheState) (decode : String → Option J) (e : RedisErr)
    (g : Except RedisErr (Option String)) (sr : Except RedisErr Unit)
    (d : Except RedisErr Nat)
    (h : cache_available cfg st = true) (h' : st'.disabled = true) :
    (get_cached_value cfg st decode (.error e)).1 = none ∧
    (get_cached_value cfg st decode (.error e)).2.disabled = true ∧
    (set_cached_value cfg st (.error e)).1 = false ∧
    (set_cached_value cfg st (.error e)).2.disabled = true ∧
    get_cached_value cfg st' decode g = (none, st') ∧
    set_cached_value cfg st' sr = (false, st') ∧
    invalidate_cache cfg st' d = (false, st') := by
  have hskip : cache_available cfg st' = false := by
    simp [cache_available, h']
  refine ⟨?_, ?_, ?_, ?_, ?_, ?_, ?_⟩ <;>
    simp [get_cached_value, set_cached_value, invalidate_cache, h, hskip,
      disable_cache]

/-- Witness for C5 at a concrete configuration, state, and error. -/
theorem cache_backend_error_soft_fail_witness :
    (get_cached_value ⟨true, "redis://localhost:6379/0"⟩ ⟨false⟩
      (fun _ => (none : Option Nat)) (.error .err)).1 = none ∧
    (get_cached_value ⟨true, "redis://localhost:6379/0"⟩ ⟨false⟩
      (fun _ => (none : Option Nat)) (.error .err)).2.disabled = true ∧
    (set_cached_value ⟨true, "redis://localhost:6379/0"⟩ ⟨false⟩ (.error .err)).1 = false ∧
    (set_cached_value ⟨true, "redis://localhost:6379/0"⟩ ⟨false⟩ (.error .err)).2.disabled = true ∧
    get_cached_value ⟨true, "redis://localhost:6379/0"⟩ ⟨true⟩
      (fun _ => (none : Option Nat)) (.ok (some "payload")) = (none, ⟨true⟩) ∧
    set_cached_value ⟨true, "redis://localhost:6379/0"⟩ ⟨true⟩ (.ok ()) = (false, ⟨true⟩) ∧
    invalidate_cache ⟨true, "redis://localhost:6379/0"⟩ ⟨true⟩ (.ok 1) = (false, ⟨true⟩) :=
  cache_backend_error_soft_fail ⟨true, "redis://localhost:6379/0"⟩ ⟨false⟩ ⟨true⟩
    (fun _ => (none : Option Nat)) .err (.ok (some "payload")) (.ok ()) (.ok 1)
    (by decide) rfl

/-- C9: with caching enabled, a stored payload that does not decode as
JSON is returned as the raw stored string (not a miss, not an error);
only an absent key gives a miss. -/
theorem cache_get_returns_raw_on_undecodable {J : Type} (cfg : CacheCfg)
    (st : CacheState) (decode : String → Option J) (p : String)
    (h : cache_available cfg st = true) (hd : decode p = none) :
    get_cached_value cfg st decode (.ok (some p)) = (some (.raw p), st) ∧
    get_cached_value cfg st decode (.ok none) = (none, st) := by
  constructor <;> simp [get_cached_value, h, hd]

/-- Witness for C9 at a concrete configuration and payload. -/
theorem cache_get_returns_raw_on_undecodable_witness :
    get_cached_value ⟨true, "redis://localhost:6379/0"⟩ ⟨false⟩
      (fun _ => (none : Option Nat)) (.ok (some "not json")) =
      (some (.raw "not json"), ⟨false⟩) ∧
    get_cached_value ⟨true, "redis://localhost:6379/0"⟩ ⟨false⟩
      (fun _ => (none : Option Nat)) (.ok none) = (none, ⟨false⟩) :=
  cache_get_returns_raw_on_undecodable ⟨true, "redis://localhost:6379/0"⟩ ⟨false⟩
    (fun _ => (none : Option Nat)) "not json" (by decide) rfl

/-- C6: whenever the page acquisition succeeds, the whole multi-page
scrape logs exactly the event list `[acquire, release]` — one page
resource for all pages, released on every exit path (normal completion
and every propagated exception alike); and in every case the acquire and
release counts balance. -/
theorem scrape_acquires_once_and_releases (acquire : Except BrowserExn Unit)
    (goto wait : Nat → Except BrowserExn Unit)
    (extract : Nat → Except BrowserExn (List RawListing)) (n : Nat) :
    ((get_rentals_klaz acquire goto wait extract n).2.count PageEv.acquire =
      (get_rentals_klaz acquire goto wait extract n).2.count PageEv.release) ∧
    (acquire = .ok () →
      (get_rentals_klaz acquire goto wait extract n).2 =
        [PageEv.acquire, PageEv.release]) := by
  cases acquire with
  | error e => simp [get_rentals_klaz]
  | ok u =>
      cases u
      have hlog : (get_rentals_klaz (.ok ()) goto wait extract n).2 =
          [PageEv.acquire, PageEv.release] := by
        simp only [get_rentals_klaz]
        cases loopPages goto wait extract 0 n [] <;> rfl
      exact ⟨by rw [hlog]; decide, fun _ => hlog⟩

/-- Witness for C6: a concrete scrape whose second page navigation
raises still logs exactly one acquire and one release. -/
theorem scrape_acquires_once_and_releases_witness :
    (get_rentals_klaz (.ok ())
      (fun i => if i = 0 then .ok () else .error (.exn 7))
      (fun _ => .error (.exn 1)) (fun _ => .ok []) 3).2 =
      [PageEv.acquire, PageEv.release] :=
  (scrape_acquires_once_and_releases (.ok ())
    (fun i => if i = 0 then .ok () else .error (.exn 7))
    (fun _ => .error (.exn 1)) (fun _ => .ok []) 3).2 rfl

/-- C7: `build_search_url` is a pure function (identical input gives the
identical string); with both price bounds null the output is exactly the
concatenation with no price segment at all; with at least one bound set
the output contains the segment `/preis:min:max`, a missing bound
rendered as the empty string, placed right after the postal code. -/
theorem build_search_url_price_segment (pc cat : String) (loc : Option String)
    (r : Int) (mi ma : Option Int) (pg : Int) :
    build_search_url pc cat loc r mi ma pg = build_search_url pc cat loc r mi ma pg ∧
    (mi = none ∧ ma = none →
      build_search_url pc cat loc r mi ma pg =
        KLEINANZEIGEN_BASE_URL ++ "/s-wohnung-mieten/" ++ pc ++
          (if pg > 1 then "/seite:" ++ toString pg else "") ++ "/" ++ cat ++
          (truthyStr loc).getD "" ++ "r" ++ toString r) ∧
    (mi.isSome ∨ ma.isSome →
      build_search_url pc cat loc r mi ma pg =
        (KLEINANZEIGEN_BASE_URL ++ "/s-wohnung-mieten/" ++ pc) ++
          ("/preis:" ++ optIntStr mi ++ ":" ++ optIntStr ma) ++
          ((if pg > 1 then "/seite:" ++ toString pg else "") ++ "/" ++ cat ++
            (truthyStr loc).getD "" ++ "r" ++ toString r)) := by
  refine ⟨rfl, ?_, ?_⟩
  · rintro ⟨hmi, hma⟩
    subst hmi; subst hma
    simp only [build_search_url, Option.isSome_none, Bool.or_self, Bool.false_eq_true,
      if_false, String.append_assoc]
    cases truthyStr loc <;> simp [Option.getD, String.append_assoc]
  · intro h
    have hs : (mi.isSome || ma.isSome) = true := by
      rcases h with h | h <;> simp [h]
    simp only [build_search_url, hs, if_true]
    cases truthyStr loc <;> simp [Option.getD, String.append_assoc]

/-- Witness for C7 at concrete filters: no price segment when both bounds
are null; segment `/preis:500:` when only the minimum is set. -/
theorem build_search_url_price_segment_witness :
    build_search_url "74072" "c203" (some "l9245") 5 none none 1 =
      KLEINANZEIGEN_BASE_URL ++ "/s-wohnung-mieten/" ++ "74072" ++
        (if (1 : Int) > 1 then "/seite:" ++ toString (1 : Int) else "") ++ "/" ++
        "c203" ++ (truthyStr (some "l9245")).getD "" ++ "r" ++ toString (5 : Int) ∧
    build_search_url "74072" "c203" (some "l9245") 5 (some 500) none 1 =
      (KLEINANZEIGEN_BASE_URL ++ "/s-wohnung-mieten/" ++ "74072") ++
        ("/preis:" ++ optIntStr (some 500) ++ ":" ++ optIntStr none) ++
        ((if (1 : Int) > 1 then "/seite:" ++ toString (1 : Int) else "") ++ "/" ++
          "c203" ++ (truthyStr (some "l9245")).getD "" ++ "r" ++ toString (5 : Int)) :=
  ⟨(build_search_url_price_segment "74072" "c203" (some "l9245") 5 none none 1).2.1
      ⟨rfl, rfl⟩,
   (build_search_url_price_segment "74072" "c203" (some "l9245") 5 (some 500) none 1).2.2
      (Or.inl rfl)⟩

/-- C8: the code is NOT total as claimed.  Python's `str.isdigit`
accepts non-decimal digit characters such as the superscript `'²'`
(Numeric_Type=Digit), while `int()` accepts only decimal digits; the
`isdigit` guard of `_normalize_price` (results.py:28) and the
per-character `isdigit` filter of `_normalize_views` (results.py:90-91)
therefore let an uncaught `ValueError` escape from the unguarded `int()`
call on the input `"²"`.  The normalizers whose conversions sit inside
`try/except ValueError` stay total on that input.  This theorem
evaluates the code at the failing input. -/
theorem normalize_price_views_raise_on_superscript :
    pyIsdigit "²" = true ∧
    pyInt? "²" = none ∧
    ListingResult_normalize_price "²" = .error .valueError ∧
    RealEstateResult_normalize_views "²" = .error .valueError ∧
    RealEstateResult_normalize_rental_space "²" = .ok none ∧
    RealEstateResult_normalize_nbr_rooms "²" = .ok none ∧
    RealEstateResult_normalize_cost_like "²" = .ok none := by
  refine ⟨by decide, by decide, by decide, by decide, ?_, ?_, ?_⟩
  · with_unfolding_all decide
  · with_unfolding_all decide
  · with_unfolding_all decide

/-- C3 counterexample: on `"1.234.567"` (only dots, more than one) the
cost normalizer yields `None`, not `1234567`, because the thousands
branch requires exactly one dot; the generic price normalizer also
yields `None` there and on `"950,50"`, since it accepts only digit
strings and implements no separator rule at all. -/
theorem cost_like_separator_counterexample :
    RealEstateResult_normalize_cost_like "1.234.567" = .ok none ∧
    RealEstateResult_normalize_cost_like "1.234.567" ≠ .ok (some (1234567 : ℚ)) ∧
    ListingResult_normalize_price "1.234.567" = .ok none ∧
    ListingResult_normalize_price "950,50" = .ok none := by
  refine ⟨?_, ?_, by decide, by decide⟩
  · with_unfolding_all decide
  · with_unfolding_all decide

set_option maxRecDepth 8000 in
/-- C3 amended: the separator rule holds for the cost-like normalizer
(additional costs, deposit) in this form: with both separators, `.` is
thousands and `,` decimal; with only `,`, decimal; with only `.`,
thousands exactly when the string splits on `.` into exactly two parts
and the part after the dot has exactly three characters — so a
multi-dot string such as `"1.234.567"` is unparseable and yields null —
while `"950,50"` gives 950.5, `"1.234"` gives 1234 and `"12.34"` gives
12.34.  The generic price normalizer does not follow the rule: it
accepts only digit strings. -/
theorem cost_like_separator_rule (v : String) :
    RealEstateResult_normalize_cost_like v = costLikeSpecAmended v ∧
    RealEstateResult_normalize_cost_like "950,50" = .ok (some (1901 / 2 : ℚ)) ∧
    RealEstateResult_normalize_cost_like "1.234" = .ok (some (1234 : ℚ)) ∧
    RealEstateResult_normalize_cost_like "12.34" = .ok (some (617 / 50 : ℚ)) ∧
    ListingResult_normalize_price "950,50" = .ok none ∧
    ListingResult_normalize_price "1.234" = .ok none := by
  refine ⟨?_, by with_unfolding_all decide, by with_unfolding_all decide,
    by with_unfolding_all decide, by decide, by decide⟩
  unfold RealEstateResult_normalize_cost_like costLikeSpecAmended
  dsimp only
  by_cases h0 : (v = "" || v = "-") = true
  · simp [h0]
  · simp only [h0, if_false, Bool.false_eq_true]
    by_cases h1 : ',' ∈ (pyStrip
        (pyReplace (pyReplace (pyReplace (pyReplace v "€" "") "EUR" "") "VB" "")
          " " "")).data
    <;> by_cases h2 : '.' ∈ (pyStrip
        (pyReplace (pyReplace (pyReplace (pyReplace v "€" "") "EUR" "") "VB" "")
          " " "")).data
    · simp [h1, h2]
    · simp [h1, h2]
    · simp [h1, h2]
    · simp [h1, h2]

/-- C2 counterexample: with the `c203` filter active the allowed set is
`{"203"}` (the `c` prefix is stripped), while the extractor pulls the
literal second hyphen token from the link.  The card whose detail link
ends in `.../1234-c203l9245` therefore yields token `"c203l9245"` and is
DROPPED (the claim says kept); a card whose last segment has no second
hyphen token yields no category and is also DROPPED (the claim says it
is never filtered out). -/
theorem category_filter_counterexample :
    allowedForCategory "c203" = some ["203"] ∧
    extract_category_id_from_url
      (KLEINANZEIGEN_BASE_URL ++ "/s-anzeige/schoene-wohnung/1234-c203l9245") =
      some "c203l9245" ∧
    get_rental_ads (allowedForCategory "c203") (fun _ => none) (fun _ => none)
      [⟨some ⟨some "1234", some "/s-anzeige/schoene-wohnung/1234-c203l9245",
        some "Titel", none, some "Beschreibung"⟩⟩] = [] ∧
    get_rental_ads (allowedForCategory "c203") (fun _ => none) (fun _ => none)
      [⟨some ⟨some "5678", some "/s-anzeige/wohnung/plainsegment",
        some "Titel", none, some "Beschreibung"⟩⟩] = [] := by
  refine ⟨by decide, by decide, by decide, by decide⟩

/-- C2 amended: when a category filter is active the keep/drop decision
is: take the last non-empty path segment of the detail link, split it on
`-`; the card is kept iff a second hyphen token exists and that literal
token is a member of the normalized allowed set (the filter category
with its `c`/`C` prefix stripped, e.g. `{"203"}` for `c203`).  A link
ending `.../1234-203-9245` is kept; `.../1234-c203l...` and
`.../1234-c90l...` are dropped; a card with no second hyphen token is
dropped, not passed through.  With no filter every identified card is
kept. -/
theorem category_filter_amended (normAllowed : List String)
    (spaceF roomF : ArticleElem → Option String) (art : ArticleElem)
    (adid href : String)
    (ha : truthyStr art.dataAdid = some adid)
    (hh : truthyStr art.dataHref = some href) :
    (extract_item normAllowed spaceF roomF ⟨some art⟩).isSome ↔
      (normAllowed = [] ∨
        ∃ c, extract_category_id_from_url (KLEINANZEIGEN_BASE_URL ++ href) = some c ∧
          c ∈ normAllowed) := by
  unfold extract_item
  dsimp only
  rw [ha, hh]
  dsimp only
  rcases hc : extract_category_id_from_url (KLEINANZEIGEN_BASE_URL ++ href) with _ | c
  · cases normAllowed with
    | nil => simp [hc]
    | cons a t => simp [hc]
  · cases normAllowed with
    | nil => simp [hc]
    | cons a t =>
        by_cases hmem : c ∈ a :: t
        · simp only [List.mem_cons] at hmem
          simp [hc, hmem]
        · simp only [List.mem_cons, not_or] at hmem
          simp [hc, hmem.1, hmem.2]

/-- Witness for C2 amended, at a concrete card whose link ends in
`.../1234-203-9245` and the active filter set `{"203"}`. -/
theorem category_filter_amended_witness :
    (extract_item ["203"] (fun _ => none) (fun _ => none)
      ⟨some ⟨some "1234", some "/s-anzeige/wohnung/1234-203-9245",
        some "Titel", none, some "Beschreibung"⟩⟩).isSome ↔
      ((["203"] : List String) = [] ∨
        ∃ c, extract_category_id_from_url
          (KLEINANZEIGEN_BASE_URL ++ "/s-anzeige/wohnung/1234-203-9245") = some c ∧
          c ∈ (["203"] : List String)) :=
  category_filter_amended ["203"] (fun _ => none) (fun _ => none)
    ⟨some "1234", some "/s-anzeige/wohnung/1234-203-9245",
      some "Titel", none, some "Beschreibung"⟩
    "1234" "/s-anzeige/wohnung/1234-203-9245" (by decide) (by decide)

/-- C10: every record the page extractor emits has a non-empty
`old_price`; when the card has no price container, or its price container
has no old-price element, or the old-price text cleans to the empty
string, the emitted `old_price` is the string `"0"`. -/
theorem emitted_old_price_nonempty (normAllowed : List String)
    (spaceF roomF : ArticleElem → Option String) (it : AdItem) (r : RawListing)
    (h : extract_item normAllowed spaceF roomF it = some r) :
    r.old_price ≠ "" ∧
    (∀ art, it.article = some art → art.priceContainer = none → r.old_price = "0") ∧
    (∀ art pc, it.article = some art → art.priceContainer = some pc →
      pc.oldPriceElem = none → r.old_price = "0") ∧
    (∀ art pc raw, it.article = some art → art.priceContainer = some pc →
      pc.oldPriceElem = some raw → clean_price_text (some raw) = "" →
      r.old_price = "0") := by
  obtain ⟨artOpt⟩ := it
  cases artOpt with
  | none => exact absurd h (by simp [extract_item])
  | some art =>
      have hop : r.old_price = (extractPrices art.priceContainer).2 := by
        unfold extract_item at h
        dsimp only at h
        rcases hA : truthyStr art.dataAdid with _ | adid <;>
          rcases hH : truthyStr art.dataHref with _ | href <;>
            rw [hA, hH] at h <;> dsimp only at h
        · exact absurd h (by simp)
        · exact absurd h (by simp)
        · exact absurd h (by simp)
        · split at h
          · exact absurd h (by simp)
          · cases h
            rfl
      have hspec : (extractPrices art.priceContainer).2 ≠ "" ∧
          (art.priceContainer = none → (extractPrices art.priceContainer).2 = "0") ∧
          (∀ pc, art.priceContainer = some pc → pc.oldPriceElem = none →
            (extractPrices art.priceContainer).2 = "0") ∧
          (∀ pc raw, art.priceContainer = some pc → pc.oldPriceElem = some raw →
            clean_price_text (some raw) = "" →
            (extractPrices art.priceContainer).2 = "0") := by
        rcases hpc : art.priceContainer with _ | pc
        · refine ⟨by simp [extractPrices], fun _ => by simp [extractPrices], ?_, ?_⟩
          · intro pc hsome
            simp at hsome
          · intro pc raw hsome
            simp at hsome
        · rcases hold : pc.oldPriceElem with _ | raw
          · refine ⟨?_, by simp, ?_, ?_⟩
            · simp [extractPrices, hold]
            · intro pc' hpc'
              cases hpc'
              intro _
              simp [extractPrices, hold]
            · intro pc' raw' hpc'
              cases hpc'
              rw [hold]
              intro hcontra
              exact absurd hcontra (by simp)
          · have hbranch : (extractPrices (some pc)).2 =
                if clean_price_text (some raw) = "" then "0"
                else clean_price_text (some raw) := by
              simp [extractPrices, hold]
            refine ⟨?_, by simp, ?_, ?_⟩
            · rw [hbranch]
              split
              · simp
              · assumption
            · intro pc' hpc'
              cases hpc'
              intro hcontra
              rw [hold] at hcontra
              exact absurd hcontra (by simp)
            · intro pc' raw' hpc' hraw hclean
              cases hpc'
              rw [hold] at hraw
              cases hraw
              rw [hbranch, if_pos hclean]
      refine ⟨by rw [hop]; exact hspec.1, ?_, ?_, ?_⟩
      · intro art' hart' hnone
        cases hart'
        rw [hop]
        exact hspec.2.1 hnone
      · intro art' pc hart' hpc hold
        cases hart'
        rw [hop]
        exact hspec.2.2.1 pc hpc hold
      · intro art' pc raw hart' hpc hold hclean
        cases hart'
        rw [hop]
        exact hspec.2.2.2 pc raw hpc hold hclean

/-- Witness for C10: the theorem applied to a concrete card (old-price
span present, cleaning to `"0"` semantics) gives a non-empty `old_price`
on the emitted record. -/
theorem emitted_old_price_nonempty_witness :
    (⟨"1234", KLEINANZEIGEN_BASE_URL ++ "/s-anzeige/wohnung/1234-203-9245", "Titel",
      "950", "0", "Beschreibung", none, none, none⟩ : RawListing).old_price ≠ "" :=
  (emitted_old_price_nonempty [] (fun _ => none) (fun _ => none)
    ⟨some ⟨some "1234", some "/s-anzeige/wohnung/1234-203-9245", some "Titel",
      some ⟨"950 €", some " € ", "950 €  € "⟩, some "Beschreibung"⟩⟩
    ⟨"1234", KLEINANZEIGEN_BASE_URL ++ "/s-anzeige/wohnung/1234-203-9245", "Titel",
      "950", "0", "Beschreibung", none, none, none⟩ (by decide)).1

/-- C1 counterexample: `insert_rental` (the single-record upsert) does
NOT coalesce: upserting adid `a1` with a populated description and then
upserting the same adid with description `None` erases the stored
description, contradicting the claim that it is left unchanged. -/
theorem insert_rental_overwrites_counterexample :
    ((findRow (insert_rental [] "a1" "u" "T" "500" "0" (some "nice flat") none none
        none none none none none none none).1 "a1").map Rental.description =
      some (some "nice flat")) ∧
    ((findRow (insert_rental (insert_rental [] "a1" "u" "T" "500" "0"
        (some "nice flat") none none none none none none none none none).1
        "a1" "u" "T" "500" "0" none none none none none none none none none
        none).1 "a1").map Rental.description = some none) := by
  exact ⟨by decide, by decide⟩

/-- A falsy incoming value leaves a coalesced optional field unchanged. -/
theorem coalesceStr_of_falsy (x old : Option String) (h : truthyStr x = none) :
    coalesceStr x old = old := by
  simp [coalesceStr, h]

/-- A truthy incoming value replaces a coalesced optional field. -/
theorem coalesceStr_of_truthy (x old : Option String) (v : String)
    (h : truthyStr x = some v) : coalesceStr x old = some v := by
  simp [coalesceStr, h]

/-- A falsy incoming value leaves an `x or existing` string field unchanged. -/
theorem orDefaultStr_of_falsy (x : Option String) (d : String)
    (h : truthyStr x = none) : orDefaultStr x d = d := by
  simp [orDefaultStr, h]

/-- A truthy incoming value replaces an `x or existing` string field. -/
theorem orDefaultStr_of_truthy (x : Option String) (d v : String)
    (h : truthyStr x = some v) : orDefaultStr x d = v := by
  simp [orDefaultStr, h]

/-- A falsy incoming `old_price` keeps a non-empty stored value. -/
theorem oldPriceMerge_of_falsy (x : Option String) (old : String)
    (h : truthyStr x = none) (h2 : old ≠ "") : oldPriceMerge x old = old := by
  simp [oldPriceMerge, h, h2]

/-- C1 amended: the coalesce semantics hold on the UPDATE path of the
bulk upsert: a one-record bulk call on a known adid merges with
`bulkUpdateRow`, where every listing field keeps its stored value when
the incoming value is null/empty and takes the incoming value when it is
non-empty (for `old_price`, a non-empty stored value is kept).  The
single-record `insert_rental` path, by contrast, overwrites every field
unconditionally (see the counterexample). -/
theorem bulk_update_coalesces (s : Store) (r : ScrapedRec) (a : String)
    (row : Rental) (pc cat loc : Option String) (rad : Option Int)
    (ha : truthyStr r.adid = some a) (hfind : findRow s a = some row) :
    bulk_insert_rentals s [r] pc cat loc rad =
      (replaceRow s a (bulkUpdateRow row r pc cat loc rad), 0, 1) ∧
    (truthyStr r.description = none →
      (bulkUpdateRow row r pc cat loc rad).description = row.description) ∧
    (∀ v, truthyStr r.description = some v →
      (bulkUpdateRow row r pc cat loc rad).description = some v) ∧
    (truthyStr r.url = none → (bulkUpdateRow row r pc cat loc rad).url = row.url) ∧
    (∀ v, truthyStr r.url = some v → (bulkUpdateRow row r pc cat loc rad).url = v) ∧
    (truthyStr r.title = none → (bulkUpdateRow row r pc cat loc rad).title = row.title) ∧
    (∀ v, truthyStr r.title = some v → (bulkUpdateRow row r pc cat loc rad).title = v) ∧
    (truthyStr r.price = none → (bulkUpdateRow row r pc cat loc rad).price = row.price) ∧
    (∀ v, truthyStr r.price = some v → (bulkUpdateRow row r pc cat loc rad).price = v) ∧
    (truthyStr r.old_price = none → row.old_price ≠ "" →
      (bulkUpdateRow row r pc cat loc rad).old_price = row.old_price) ∧
    (truthyStr r.rental_space = none →
      (bulkUpdateRow row r pc cat loc rad).rental_space = row.rental_space) ∧
    (truthyStr r.nbr_rooms = none →
      (bulkUpdateRow row r pc cat loc rad).nbr_rooms = row.nbr_rooms) ∧
    (truthyStr r.available_from = none →
      (bulkUpdateRow row r pc cat loc rad).available_from = row.available_from) ∧
    (truthyStr r.views = none →
      (bulkUpdateRow row r pc cat loc rad).views = row.views) ∧
    (truthyStr r.location = none →
      (bulkUpdateRow row r pc cat loc rad).location = row.location) := by
  refine ⟨?_, ?_, ?_, ?_, ?_, ?_, ?_, ?_, ?_, ?_, ?_, ?_, ?_, ?_, ?_⟩
  · simp [bulk_insert_rentals, bulkGo, ha, hfind]
  · intro h
    simp [bulkUpdateRow, coalesceStr_of_falsy _ _ h]
  · intro v h
    simp [bulkUpdateRow, coalesceStr_of_truthy _ _ _ h]
  · intro h
    simp [bulkUpdateRow, orDefaultStr_of_falsy _ _ h]
  · intro v h
    simp [bulkUpdateRow, orDefaultStr_of_truthy _ _ _ h]
  · intro h
    simp [bulkUpdateRow, orDefaultStr_of_falsy _ _ h]
  · intro v h
    simp [bulkUpdateRow, orDefaultStr_of_truthy _ _ _ h]
  · intro h
    simp [bulkUpdateRow, orDefaultStr_of_falsy _ _ h]
  · intro v h
    simp [bulkUpdateRow, orDefaultStr_of_truthy _ _ _ h]
  · intro h h2
    simp [bulkUpdateRow, oldPriceMerge_of_falsy _ _ h h2]
  · intro h
    simp [bulkUpdateRow, coalesceStr_of_falsy _ _ h]
  · intro h
    simp [bulkUpdateRow, coalesceStr_of_falsy _ _ h]
  · intro h
    simp [bulkUpdateRow, coalesceStr_of_falsy _ _ h]
  · intro h
    simp [bulkUpdateRow, coalesceStr_of_falsy _ _ h]
  · intro h
    simp [bulkUpdateRow, coalesceStr_of_falsy _ _ h]

/-- Witness for C1 amended: a populated description followed by a bulk
re-upsert of the same adid with an empty description keeps the stored
description. -/
theorem bulk_update_coalesces_witness :
    (bulkUpdateRow
      ⟨"a1", "u", "T", "500", "0", some "nice flat", none, none, none, none,
        none, none, none, none, none⟩
      ⟨some "a1", some "u", some "T", some "500", some "0", some "", none, none,
        none, none, none⟩ none none none none).description = some "nice flat" :=
  (bulk_update_coalesces
    [⟨"a1", "u", "T", "500", "0", some "nice flat", none, none, none, none,
      none, none, none, none, none⟩]
    ⟨some "a1", some "u", some "T", some "500", some "0", some "", none, none,
      none, none, none⟩ "a1"
    ⟨"a1", "u", "T", "500", "0", some "nice flat", none, none, none, none,
      none, none, none, none, none⟩ none none none none
    (by decide) (by decide)).2.1 (by decide)

/-- A found row carries the adid it was looked up by. -/
theorem findRow_adid (s : Store) (a : String) (row : Rental)
    (h : findRow s a = some row) : row.adid = a := by
  unfold findRow at h
  have := List.find?_some h
  simpa using this

/-- A missing adid means no row in the table carries it. -/
theorem findRow_none_iff (s : Store) (a : String) :
    findRow s a = none ↔ ∀ row ∈ s, row.adid ≠ a := by
  unfold findRow
  rw [List.find?_eq_none]
  constructor
  · intro h row hr
    have := h row hr
    simpa using this
  · intro h row hr
    simpa using h row hr

/-- Lookup distributes over table concatenation. -/
theorem findRow_append (s t : Store) (a : String) :
    findRow (s ++ t) a =
      match findRow s a with
      | some row => some row
      | none => findRow t a := by
  unfold findRow
  induction s with
  | nil => simp
  | cons r rest ih =>
      cases hr : (r.adid == a) <;> simp [List.find?, hr, ih]

/-- Replacing rows of an absent adid does nothing. -/
theorem replaceRow_of_absent (s : Store) (a : String) (n : Rental)
    (h : ∀ row ∈ s, row.adid ≠ a) : replaceRow s a n = s := by
  unfold replaceRow
  induction s with
  | nil => rfl
  | cons r rest ih =>
      have hr : (r.adid == a) = false := by
        simp [h r (List.mem_cons_self r rest)]
      simp only [List.map_cons, hr, if_false, Bool.false_eq_true]
      rw [ih (fun row hrow => h row (List.mem_cons_of_mem r hrow))]

/-- Replacing the found row by itself leaves a duplicate-free table
unchanged. -/
theorem replaceRow_found_self (s : Store) (a : String) (row : Rental)
    (hnd : (s.map Rental.adid).Nodup) (h : findRow s a = some row) :
    replaceRow s a row = s := by
  induction s with
  | nil => simp [findRow] at h
  | cons r rest ih =>
      rw [List.map_cons, List.nodup_cons] at hnd
      cases hr : (r.adid == a) with
      | false =>
          have hfind : findRow rest a = some row := by
            unfold findRow at h ⊢
            simpa [List.find?, hr] using h
          unfold replaceRow
          simp only [List.map_cons, hr, if_false, Bool.false_eq_true]
          rw [show (rest.map fun x => if x.adid == a then row else x) =
            replaceRow rest a row from rfl, ih hnd.2 hfind]
      | true =>
          have hrow : row = r := by
            unfold findRow at h
            simp [List.find?, hr] at h
            exact h.symm
          have ha : r.adid = a := by simpa using hr
          subst hrow
          unfold replaceRow
          simp only [List.map_cons, hr, if_true]
          have : ∀ x ∈ rest, x.adid ≠ a := by
            intro x hx hcontra
            exact hnd.1 (ha ▸ hcontra ▸ List.mem_map_of_mem Rental.adid hx)
          rw [show (rest.map fun x => if x.adid == a then row else x) =
            replaceRow rest a row from rfl, replaceRow_of_absent rest a row this]

/-- After replacing the row found under `a` by a row that still carries
adid `a`, looking `a` up finds the replacement. -/
theorem findRow_replaceRow_self (s : Store) (a : String) (n row : Rental)
    (hn : n.adid = a) (h : findRow s a = some row) :
    findRow (replaceRow s a n) a = some n := by
  induction s with
  | nil => simp [findRow] at h
  | cons r rest ih =>
      cases hr : (r.adid == a) with
      | false =>
          have hfind : findRow rest a = some row := by
            unfold findRow at h ⊢
            simpa [List.find?, hr] using h
          unfold findRow replaceRow
          simp only [List.map_cons, hr, if_false, Bool.false_eq_true,
            List.find?, hr]
          exact ih hfind
      | true =>
          unfold findRow replaceRow
          simp [List.find?, hr, hn]

/-- Re-merging the same incoming value is absorbed by `x or d`. -/
theorem orDefaultStr_absorb (x : Option String) (d : String) :
    orDefaultStr x (orDefaultStr x d) = orDefaultStr x d := by
  cases hx : truthyStr x <;> simp [orDefaultStr, hx]

/-- Re-merging the same incoming `old_price` is absorbed. -/
theorem oldPriceMerge_absorb (x : Option String) :
    oldPriceMerge x (orDefaultStr x "0") = orDefaultStr x "0" := by
  cases hx : truthyStr x <;> simp [oldPriceMerge, orDefaultStr, hx]

/-- Coalescing a value with itself is the identity. -/
theorem coalesceStr_self (x : Option String) : coalesceStr x x = x := by
  unfold coalesceStr truthyStr
  cases x with
  | none => rfl
  | some s => by_cases hs : s = "" <;> simp [hs]

/-- Coalescing an optional int with itself is the identity. -/
theorem coalesceInt_self (x : Option Int) : coalesceInt x x = x := by
  cases x with
  | none => rfl
  | some i =>
      by_cases hi : i = 0 <;> simp [coalesceInt, hi]

/-- Updating a freshly inserted row with its own record changes nothing. -/
theorem bulkUpdateRow_insert_self (a : String) (r : ScrapedRec)
    (pc cat loc : Option String) (rad : Option Int) :
    bulkUpdateRow (bulkInsertRow a r pc cat loc rad) r pc cat loc rad =
      bulkInsertRow a r pc cat loc rad := by
  unfold bulkUpdateRow bulkInsertRow
  simp [orDefaultStr_absorb, oldPriceMerge_absorb, coalesceStr_self,
    coalesceInt_self]

/-- First pass of `bulk_insert_rentals`: over records with distinct,
truthy adids all absent from the table, every record is inserted (in
order) and nothing is updated. -/
theorem bulkGo_all_new (pc cat loc : Option String) (rad : Option Int) :
    ∀ (recs : List ScrapedRec) (s : Store) (i u : Nat),
      (∀ r ∈ recs, (truthyStr r.adid).isSome) →
      ((recs.map (fun r => truthyStr r.adid)).Nodup) →
      (∀ r ∈ recs, ∀ a, truthyStr r.adid = some a → findRow s a = none) →
      bulkGo pc cat loc rad recs s i u =
        (s ++ recs.map (insRowOf pc cat loc rad), i + recs.length, u) := by
  intro recs
  induction recs with
  | nil =>
      intro s i u _ _ _
      simp [bulkGo]
  | cons r rest ih =>
      intro s i u h1 h2 h3
      obtain ⟨a, ha⟩ := Option.isSome_iff_exists.mp (h1 r (List.mem_cons_self r rest))
      have hfound : findRow s a = none := h3 r (List.mem_cons_self r rest) a ha
      rw [List.map_cons, List.nodup_cons] at h2
      have hdistinct : ∀ r' ∈ rest, ∀ a', truthyStr r'.adid = some a' → a' ≠ a := by
        intro r' hr' a' ha' hcontra
        subst hcontra
        apply h2.1
        have hmm : truthyStr r'.adid ∈ rest.map (fun rr => truthyStr rr.adid) :=
          List.mem_map_of_mem _ hr'
        rw [ha'] at hmm
        rw [ha]
        exact hmm
      have h3' : ∀ r' ∈ rest, ∀ a', truthyStr r'.adid = some a' →
          findRow (s ++ [bulkInsertRow a r pc cat loc rad]) a' = none := by
        intro r' hr' a' ha'
        rw [findRow_append, h3 r' (List.mem_cons_of_mem r hr') a' ha']
        rw [findRow_none_iff]
        intro row hrow
        rw [List.mem_singleton] at hrow
        subst hrow
        show (bulkInsertRow a r pc cat loc rad).adid ≠ a'
        have : (bulkInsertRow a r pc cat loc rad).adid = a := rfl
        rw [this]
        exact fun hcontra => hdistinct r' hr' a' ha' hcontra.symm
      have hstep : bulkGo pc cat loc rad (r :: rest) s i u =
          bulkGo pc cat loc rad rest (s ++ [bulkInsertRow a r pc cat loc rad])
            (i + 1) u := by
        simp only [bulkGo, ha, hfound]
      rw [hstep]
      rw [ih (s ++ [bulkInsertRow a r pc cat loc rad]) (i + 1) u
        (fun r' hr' => h1 r' (List.mem_cons_of_mem r hr')) h2.2 h3']
      have hins : insRowOf pc cat loc rad r = bulkInsertRow a r pc cat loc rad := by
        unfold insRowOf
        rw [ha]
        rfl
      have harith : i + 1 + rest.length = i + (r :: rest).length := by
        simp [List.length_cons]
        omega
      rw [List.map_cons, hins, harith, List.append_assoc, List.singleton_append]

/-- Second pass of `bulk_insert_rentals`: when every record's adid is
already present and its merge leaves the table unchanged, the whole pass
only counts updates. -/
theorem bulkGo_all_existing (pc cat loc : Option String) (rad : Option Int) :
    ∀ (recs : List ScrapedRec) (s : Store) (i u : Nat),
      (∀ r ∈ recs, ∃ a row, truthyStr r.adid = some a ∧ findRow s a = some row ∧
        replaceRow s a (bulkUpdateRow row r pc cat loc rad) = s) →
      bulkGo pc cat loc rad recs s i u = (s, i, u + recs.length) := by
  intro recs
  induction recs with
  | nil =>
      intro s i u _
      simp [bulkGo]
  | cons r rest ih =>
      intro s i u h
      obtain ⟨a, row, ha, hfind, hrepl⟩ := h r (List.mem_cons_self r rest)
      have hstep : bulkGo pc cat loc rad (r :: rest) s i u =
          bulkGo pc cat loc rad rest
            (replaceRow s a (bulkUpdateRow row r pc cat loc rad)) i (u + 1) := by
        simp only [bulkGo, ha, hfind]
      rw [hstep, hrepl]
      rw [ih s i (u + 1) (fun r' hr' => h r' (List.mem_cons_of_mem r hr'))]
      have harith : u + 1 + rest.length = u + (r :: rest).length := by
        simp [List.length_cons]
        omega
      rw [harith]

/-- In the freshly inserted block, each record's adid finds exactly its
own inserted row. -/
theorem findRow_insBlock (pc cat loc : Option String) (rad : Option Int) :
    ∀ (recs : List ScrapedRec) (r : ScrapedRec) (a : String),
      r ∈ recs →
      truthyStr r.adid = some a →
      (∀ r' ∈ recs, (truthyStr r'.adid).isSome) →
      ((recs.map (fun r' => truthyStr r'.adid)).Nodup) →
      findRow (recs.map (insRowOf pc cat loc rad)) a =
        some (insRowOf pc cat loc rad r) := by
  intro recs
  induction recs with
  | nil =>
      intro r a hr
      simp at hr
  | cons r0 rest ih =>
      intro r a hr ha hall hnd
      obtain ⟨a0, ha0⟩ :=
        Option.isSome_iff_exists.mp (hall r0 (List.mem_cons_self r0 rest))
      rw [List.map_cons, List.nodup_cons] at hnd
      have hrow0 : (insRowOf pc cat loc rad r0).adid = a0 := by
        unfold insRowOf
        rw [ha0]
        rfl
      rcases List.mem_cons.mp hr with hhead | hmem
      · subst hhead
        have haa : a0 = a := by
          rw [ha0] at ha
          injection ha
        have hpred : ((insRowOf pc cat loc rad r).adid == a) = true := by
          simp [hrow0, haa]
        unfold findRow
        rw [List.map_cons]
        simp [List.find?, hpred]
      · have hne : a0 ≠ a := by
          intro hcontra
          apply hnd.1
          have hmm : truthyStr r.adid ∈ rest.map (fun r' => truthyStr r'.adid) :=
            List.mem_map_of_mem _ hmem
          rw [ha] at hmm
          rw [ha0, hcontra]
          exact hmm
        have hpred : ((insRowOf pc cat loc rad r0).adid == a) = false := by
          simp [hrow0, hne]
        unfold findRow
        rw [List.map_cons]
        simp only [List.find?, hpred]
        exact ih r a hmem ha (fun r' hr' => hall r' (List.mem_cons_of_mem r0 hr'))
          hnd.2

/-- C4: starting from a duplicate-free table containing none of the
records' external ids, bulk-upserting a set of records with distinct
truthy adids inserts all of them — `(N, 0)` — and bulk-upserting the
same set again updates all of them — `(0, N)` — while leaving the table
unchanged, so a point lookup by external id returns field-identical
listing data after either call. -/
theorem bulk_upsert_idempotent (s0 : Store) (recs : List ScrapedRec)
    (pc cat loc : Option String) (rad : Option Int)
    (hnd0 : (s0.map Rental.adid).Nodup)
    (h1 : ∀ r ∈ recs, (truthyStr r.adid).isSome)
    (h2 : (recs.map (fun r => truthyStr r.adid)).Nodup)
    (h3 : ∀ r ∈ recs, ∀ a, truthyStr r.adid = some a → findRow s0 a = none) :
    bulk_insert_rentals s0 recs pc cat loc rad =
      (s0 ++ recs.map (insRowOf pc cat loc rad), recs.length, 0) ∧
    bulk_insert_rentals (s0 ++ recs.map (insRowOf pc cat loc rad)) recs
      pc cat loc rad =
      (s0 ++ recs.map (insRowOf pc cat loc rad), 0, recs.length) ∧
    (∀ a, get_rental_by_adid
        (bulk_insert_rentals (bulk_insert_rentals s0 recs pc cat loc rad).1 recs
          pc cat loc rad).1 a =
      get_rental_by_adid (bulk_insert_rentals s0 recs pc cat loc rad).1 a) := by
  have e1 : bulk_insert_rentals s0 recs pc cat loc rad =
      (s0 ++ recs.map (insRowOf pc cat loc rad), recs.length, 0) := by
    unfold bulk_insert_rentals
    rw [bulkGo_all_new pc cat loc rad recs s0 0 0 h1 h2 h3, Nat.zero_add]
  have hnd_g : (recs.map (fun r => (truthyStr r.adid).getD "")).Nodup := by
    have hmapeq : recs.map (fun r => truthyStr r.adid) =
        (recs.map (fun r => (truthyStr r.adid).getD "")).map some := by
      rw [List.map_map]
      apply List.map_congr_left
      intro r hr
      obtain ⟨a, ha⟩ := Option.isSome_iff_exists.mp (h1 r hr)
      simp [ha]
    have h2' := h2
    rw [hmapeq] at h2'
    exact List.Nodup.of_map _ h2'
  have hnd_block : ((recs.map (insRowOf pc cat loc rad)).map Rental.adid).Nodup := by
    rw [List.map_map]
    exact hnd_g
  have hdisj : ∀ x ∈ s0.map Rental.adid,
      x ∉ (recs.map (insRowOf pc cat loc rad)).map Rental.adid := by
    intro x hx hxin
    rw [List.map_map] at hxin
    obtain ⟨r, hr, hxeq⟩ := List.mem_map.mp hxin
    obtain ⟨a, ha⟩ := Option.isSome_iff_exists.mp (h1 r hr)
    have hxa : x = a := by
      rw [← hxeq]
      show (insRowOf pc cat loc rad r).adid = a
      unfold insRowOf
      rw [ha]
      rfl
    have hnone := h3 r hr a ha
    rw [findRow_none_iff] at hnone
    obtain ⟨row, hrow, hroweq⟩ := List.mem_map.mp hx
    exact hnone row hrow (by rw [hroweq, hxa])
  have hnd1 : ((s0 ++ recs.map (insRowOf pc cat loc rad)).map Rental.adid).Nodup := by
    rw [List.map_append]
    exact List.Nodup.append hnd0 hnd_block (fun x hx hy => hdisj x hx hy)
  have hfind1 : ∀ r ∈ recs, ∀ a, truthyStr r.adid = some a →
      findRow (s0 ++ recs.map (insRowOf pc cat loc rad)) a =
        some (insRowOf pc cat loc rad r) := by
    intro r hr a ha
    rw [findRow_append, h3 r hr a ha]
    exact findRow_insBlock pc cat loc rad recs r a hr ha h1 h2
  have e2 : bulk_insert_rentals (s0 ++ recs.map (insRowOf pc cat loc rad)) recs
      pc cat loc rad =
      (s0 ++ recs.map (insRowOf pc cat loc rad), 0, recs.length) := by
    unfold bulk_insert_rentals
    rw [bulkGo_all_existing pc cat loc rad recs _ 0 0 ?hexist, Nat.zero_add]
    case hexist =>
      intro r hr
      obtain ⟨a, ha⟩ := Option.isSome_iff_exists.mp (h1 r hr)
      refine ⟨a, insRowOf pc cat loc rad r, ha, hfind1 r hr a ha, ?_⟩
      have hupd : bulkUpdateRow (insRowOf pc cat loc rad r) r pc cat loc rad =
          insRowOf pc cat loc rad r := by
        unfold insRowOf
        exact bulkUpdateRow_insert_self _ r pc cat loc rad
      rw [hupd]
      exact replaceRow_found_self _ a _ hnd1 (hfind1 r hr a ha)
  refine ⟨e1, e2, ?_⟩
  intro a
  rw [e1]
  rw [show (bulk_insert_rentals (s0 ++ recs.map (insRowOf pc cat loc rad), recs.length,
    (0 : Nat)).1 recs pc cat loc rad) = _ from e2]

/-- Witness for C4: two fresh records bulk-upserted twice into the empty
table give counts `(2, 0)` then `(0, 2)` over the same resulting table. -/
theorem bulk_upsert_idempotent_witness :
    bulk_insert_rentals []
      [⟨some "a1", some "u1", some "T1", some "500", none, some "d1", none,
        none, none, none, none⟩,
       ⟨some "a2", some "u2", some "T2", some "700", none, none, none, none,
        none, none, none⟩] none none none none =
      (([] : Store) ++
        [⟨some "a1", some "u1", some "T1", some "500", none, some "d1", none,
          none, none, none, none⟩,
         ⟨some "a2", some "u2", some "T2", some "700", none, none, none, none,
          none, none, none⟩].map (insRowOf none none none none), 2, 0) ∧
    bulk_insert_rentals
      (([] : Store) ++
        [⟨some "a1", some "u1", some "T1", some "500", none, some "d1", none,
          none, none, none, none⟩,
         ⟨some "a2", some "u2", some "T2", some "700", none, none, none, none,
          none, none, none⟩].map (insRowOf none none none none))
      [⟨some "a1", some "u1", some "T1", some "500", none, some "d1", none,
        none, none, none, none⟩,
       ⟨some "a2", some "u2", some "T2", some "700", none, none, none, none,
        none, none, none⟩] none none none none =
      (([] : Store) ++
        [⟨some "a1", some "u1", some "T1", some "500", none, some "d1", none,
          none, none, none, none⟩,
         ⟨some "a2", some "u2", some "T2", some "700", none, none, none, none,
          none, none, none⟩].map (insRowOf none none none none), 0, 2) :=
  ⟨(bulk_upsert_idempotent []
      [⟨some "a1", some "u1", some "T1", some "500", none, some "d1", none,
        none, none, none, none⟩,
       ⟨some "a2", some "u2", some "T2", some "700", none, none, none, none,
        none, none, none⟩] none none none none
      (by decide) (by decide) (by decide) (by decide)).1,
   (bulk_upsert_idempotent []
      [⟨some "a1", some "u1", some "T1", some "500", none, some "d1", none,
        none, none, none, none⟩,
       ⟨some "a2", some "u2", some "T2", some "700", none, none, none, none,
        none, none, none⟩] none none none none
      (by decide) (by decide) (by decide) (by decide)).2.1⟩
